import Mathlib

/-!
Verification of the live meeting-room coordinator of TaskScribe
(`src/backend/server.py`).

The server keeps one global in-memory table `active_rooms` mapping a room id
to its live state (participant list, host, recording flag, title), and uses
socket rooms for delivery: every connection (`sid`) is in its own personal
socket room named by its `sid`, and `join_room`/`leave_room` add or remove
the requesting `sid` from the socket room named by the meeting's `roomId`.
Each socketio event handler is embedded below as a pure function from the
server state (socket-room membership plus `active_rooms`) to a new state
together with the list of emissions it performs.  Message fields are read
with `data.get(...)`, so each field is an `Option`; the handlers apply the
same defaults as the source.
-/

namespace TaskScribe

/-- Keys of Python dictionaries indexed by `data.get(...)` results: the
source can use `None` as a dictionary key, so keys are optional strings. -/
abbrev Key := Option String

/-- Association-list lookup, the embedding of `d[k]` / `d.get(k)` on the
server's dictionaries. -/
def lookup {α : Type} : List (Key × α) → Key → Option α
  | [], _ => none
  | (k', v) :: rest, k => if k' = k then some v else lookup rest k

/-- Association-list update, the embedding of `d[k] = v`: replaces the
binding in place when the key is present, appends it otherwise (Python
dictionaries keep insertion order). -/
def setKey {α : Type} : List (Key × α) → Key → α → List (Key × α)
  | [], k, v => [(k, v)]
  | (k', v') :: rest, k, v =>
      if k' = k then (k, v) :: rest else (k', v') :: setKey rest k v

/-- One participant entry, as built by `handle_join_room`
(`src/backend/server.py:304-308`). -/
structure Participant where
  userId : String
  userName : String
  joinedAt : String
deriving DecidableEq, Repr

/-- Live state of one room: the value stored in `active_rooms`
(`src/backend/server.py:223`). -/
structure RoomState where
  participants : List Participant
  host : String
  recording : Bool
  title : String
deriving DecidableEq, Repr

/-- Socket-room table: socket room name to the list of member `sid`s. -/
abbrev SioRooms := List (Key × List String)

/-- Members of a socket room (empty when the room name is unknown). -/
def roomMembers (t : SioRooms) (k : Key) : List String :=
  (lookup t k).getD []

/-- Embedding of flask-socketio `join_room`: adds the requesting `sid` to
the socket room named `k` (socket rooms are sets of sids). -/
def sioEnterRoom (sid : String) (k : Key) (t : SioRooms) : SioRooms :=
  let ms := roomMembers t k
  setKey t k (if sid ∈ ms then ms else ms ++ [sid])

/-- Embedding of flask-socketio `leave_room`: removes the requesting `sid`
from the socket room named `k`. -/
def sioLeaveRoom (sid : String) (k : Key) (t : SioRooms) : SioRooms :=
  setKey t k ((roomMembers t k).filter (fun x => x ≠ sid))

/-- Whole in-memory server state touched by the socketio handlers. -/
structure ServerState where
  sioRooms : SioRooms
  activeRooms : List (Key × RoomState)
deriving DecidableEq, Repr

/-- Payloads of the events the handlers emit. -/
inductive Payload where
  | userJoined (userId userName : String) (participantCount : Nat)
  | roomUsers (participants : List Participant)
  | userLeft (userId : Key) (participantCount : Nat)
  | webrtcOffer (offer : Key) (senderId : Key)
  | webrtcAnswer (answer : Key) (senderId : Key)
  | iceCandidate (candidate : Key) (senderId : Key)
  | emptyPayload
deriving DecidableEq, Repr

/-- One `emit` call, with its recipients resolved against the socket-room
table at the moment of the call: `emit(..., room=r)` reaches the members of
socket room `r` (minus `skip_sid` when given), and an `emit` without `room`
reaches only the requesting `sid`. -/
structure Emission where
  event : String
  payload : Payload
  recipients : List String
deriving DecidableEq, Repr

/-- Fields read from the `join-room` message (`data.get`, hence optional). -/
structure JoinData where
  roomId : Key
  userName : Key
  userId : Key
deriving DecidableEq, Repr

/-- Embedding of `handle_join_room` (`src/backend/server.py:287-324`).
`freshId` stands for the `uuid4` generated when `userId` is absent and
`now` for the timestamp. -/
def handle_join_room (sid : String) (data : JoinData) (freshId now : String)
    (s : ServerState) : ServerState × List Emission :=
  let room_id := data.roomId
  let user_name := data.userName.getD "Anonymous"
  let user_id := data.userId.getD freshId
  let sio1 := sioEnterRoom sid room_id s.sioRooms
  let rooms1 :=
    if lookup s.activeRooms room_id = none then
      setKey s.activeRooms room_id ⟨[], user_name, false, "Meeting"⟩
    else s.activeRooms
  let participant : Participant := ⟨user_id, user_name, now⟩
  let roomSt := (lookup rooms1 room_id).getD ⟨[], user_name, false, "Meeting"⟩
  let roomSt2 := { roomSt with participants := roomSt.participants ++ [participant] }
  let rooms2 := setKey rooms1 room_id roomSt2
  (⟨sio1, rooms2⟩,
   [⟨"user-joined",
     .userJoined user_id user_name roomSt2.participants.length,
     (roomMembers sio1 room_id).filter (fun x => x ≠ sid)⟩,
    ⟨"room-users", .roomUsers roomSt2.participants, [sid]⟩])

/-- Fields read from the `leave-room` message. -/
structure LeaveData where
  roomId : Key
  userId : Key
deriving DecidableEq, Repr

/-- Embedding of `handle_leave_room` (`src/backend/server.py:326-345`). -/
def handle_leave_room (sid : String) (data : LeaveData)
    (s : ServerState) : ServerState × List Emission :=
  let room_id := data.roomId
  let user_id := data.userId
  let sio1 := sioLeaveRoom sid room_id s.sioRooms
  match lookup s.activeRooms room_id with
  | none => (⟨sio1, s.activeRooms⟩, [])
  | some rs =>
      let rs2 := { rs with
        participants := rs.participants.filter (fun p => some p.userId ≠ user_id) }
      (⟨sio1, setKey s.activeRooms room_id rs2⟩,
       [⟨"user-left", .userLeft user_id rs2.participants.length,
         roomMembers sio1 room_id⟩])

/-- Fields read from the `webrtc-offer` message. -/
structure OfferData where
  targetId : Key
  offer : Key
  senderId : Key
deriving DecidableEq, Repr

/-- Embedding of `handle_webrtc_offer` (`src/backend/server.py:347-357`):
no state is touched; one emission to the socket room named `targetId`. -/
def handle_webrtc_offer (data : OfferData)
    (s : ServerState) : ServerState × List Emission :=
  (s, [⟨"webrtc-offer", .webrtcOffer data.offer data.senderId,
        roomMembers s.sioRooms data.targetId⟩])

/-- Fields read from the `webrtc-answer` message. -/
structure AnswerData where
  targetId : Key
  answer : Key
  senderId : Key
deriving DecidableEq, Repr

/-- Embedding of `handle_webrtc_answer` (`src/backend/server.py:359-369`). -/
def handle_webrtc_answer (data : AnswerData)
    (s : ServerState) : ServerState × List Emission :=
  (s, [⟨"webrtc-answer", .webrtcAnswer data.answer data.senderId,
        roomMembers s.sioRooms data.targetId⟩])

/-- Fields read from the `webrtc-ice-candidate` message. -/
structure IceData where
  targetId : Key
  candidate : Key
  senderId : Key
deriving DecidableEq, Repr

/-- Embedding of `handle_ice_candidate` (`src/backend/server.py:371-381`). -/
def handle_ice_candidate (data : IceData)
    (s : ServerState) : ServerState × List Emission :=
  (s, [⟨"webrtc-ice-candidate", .iceCandidate data.candidate data.senderId,
        roomMembers s.sioRooms data.targetId⟩])

/-- Embedding of `handle_start_recording` (`src/backend/server.py:383-391`). -/
def handle_start_recording (roomId : Key)
    (s : ServerState) : ServerState × List Emission :=
  match lookup s.activeRooms roomId with
  | none => (s, [])
  | some rs =>
      (⟨s.sioRooms, setKey s.activeRooms roomId { rs with recording := true }⟩,
       [⟨"recording-started", .emptyPayload, roomMembers s.sioRooms roomId⟩])

/-- Embedding of `handle_stop_recording` (`src/backend/server.py:393-401`). -/
def handle_stop_recording (roomId : Key)
    (s : ServerState) : ServerState × List Emission :=
  match lookup s.activeRooms roomId with
  | none => (s, [])
  | some rs =>
      (⟨s.sioRooms, setKey s.activeRooms roomId { rs with recording := false }⟩,
       [⟨"recording-stopped", .emptyPayload, roomMembers s.sioRooms roomId⟩])

/-- Transport disconnect.  The source registers no socketio `disconnect`
handler, so only the transport layer acts: the closing `sid` drops out of
every socket room, while `active_rooms` is untouched and nothing is
emitted. -/
def handle_disconnect (sid : String)
    (s : ServerState) : ServerState × List Emission :=
  (⟨s.sioRooms.map (fun kv => (kv.1, kv.2.filter (fun x => x ≠ sid))),
    s.activeRooms⟩, [])

/-- A durable-store room document, as built by `create_room`
(`src/backend/server.py:235-242`). -/
structure RoomDoc where
  roomId : String
  title : String
  hostName : String
  createdAt : String
  status : String
  participants : List Participant
deriving DecidableEq, Repr

/-- Fields read from the body of `POST /api/room/create`. -/
structure CreateData where
  hostName : Key
  title : Key
deriving DecidableEq, Repr

/-- Outcome of `create_room`: HTTP 201 with the document, or the HTTP 500
error response produced by the `except` branch. -/
inductive CreateResult where
  | created (doc : RoomDoc)
  | error
deriving DecidableEq, Repr

/-- Embedding of `create_room` (`src/backend/server.py:225-263`).
`storeOk` tells whether the `mongo.db.rooms.insert_one` write succeeds;
when it raises, control jumps to the `except` branch before
`active_rooms[room_id]` is assigned, so neither the store nor the live
table changes. -/
def create_room (data : CreateData) (room_id now : String) (storeOk : Bool)
    (store : List RoomDoc) (s : ServerState) :
    List RoomDoc × ServerState × CreateResult :=
  let host_name := data.hostName.getD "Anonymous"
  let room_title := data.title.getD "Untitled Meeting"
  let room_doc : RoomDoc := ⟨room_id, room_title, host_name, now, "active", []⟩
  if storeOk then
    (store ++ [room_doc],
     ⟨s.sioRooms, setKey s.activeRooms (some room_id)
        ⟨[], host_name, false, room_title⟩⟩,
     .created room_doc)
  else
    (store, s, .error)

/-- Outcome of `GET /api/room/<room_id>`: 404, or 200 with the stored
document and the live participant count merged in. -/
inductive GetRoomResult where
  | notFound
  | ok (doc : RoomDoc) (participantCount : Nat)
deriving DecidableEq, Repr

/-- Live participant count merged in by `get_room`
(`src/backend/server.py:275-278`): the length of the live participant list
when the room has live state, 0 otherwise. -/
def liveCount (s : ServerState) (room_id : String) : Nat :=
  match lookup s.activeRooms (some room_id) with
  | some rs => rs.participants.length
  | none => 0

/-- Embedding of `get_room` (`src/backend/server.py:265-284`): the document
is looked up in the durable store alone; 404 when the store has no document
with that id, regardless of live state. -/
def get_room (room_id : String) (store : List RoomDoc)
    (s : ServerState) : GetRoomResult :=
  match store.find? (fun d => d.roomId == room_id) with
  | none => .notFound
  | some doc => .ok doc (liveCount s room_id)

/-! Association-list and socket-room lemmas. -/

theorem lookup_setKey_self {α : Type} (t : List (Key × α)) (k : Key) (v : α) :
    lookup (setKey t k v) k = some v := by
  induction t with
  | nil => simp [setKey, lookup]
  | cons hd tl ih =>
      obtain ⟨k', v'⟩ := hd
      by_cases h : k' = k <;> simp [setKey, lookup, h, ih]

theorem lookup_setKey_ne {α : Type} (t : List (Key × α)) (k k' : Key) (v : α)
    (h : k' ≠ k) : lookup (setKey t k v) k' = lookup t k' := by
  have hk : ¬ k = k' := fun e => h e.symm
  induction t with
  | nil => simp [setKey, lookup, hk]
  | cons hd tl ih =>
      obtain ⟨k0, v0⟩ := hd
      by_cases h0 : k0 = k
      · subst h0
        simp [setKey, lookup, hk]
      · by_cases h1 : k0 = k' <;> simp [setKey, lookup, h0, h1, h, ih]

theorem roomMembers_setKey_self (t : SioRooms) (k : Key) (v : List String) :
    roomMembers (setKey t k v) k = v := by
  simp [roomMembers, lookup_setKey_self]

theorem roomMembers_setKey_ne (t : SioRooms) (k k' : Key) (v : List String)
    (h : k' ≠ k) : roomMembers (setKey t k v) k' = roomMembers t k' := by
  simp [roomMembers, lookup_setKey_ne t k k' v h]

theorem mem_roomMembers_sioEnterRoom_self (sid : String) (k : Key) (t : SioRooms) :
    sid ∈ roomMembers (sioEnterRoom sid k t) k := by
  unfold sioEnterRoom
  rw [roomMembers_setKey_self]
  by_cases h : sid ∈ roomMembers t k <;> simp [h]

theorem roomMembers_sioEnterRoom_ne (sid : String) (k k' : Key) (t : SioRooms)
    (h : k' ≠ k) : roomMembers (sioEnterRoom sid k t) k' = roomMembers t k' := by
  unfold sioEnterRoom
  rw [roomMembers_setKey_ne _ _ _ _ h]

/-! Shape lemmas about `handle_join_room`. -/

theorem join_sioRooms_eq (sid : String) (d : JoinData) (freshId now : String)
    (s : ServerState) :
    ((handle_join_room sid d freshId now s).1).sioRooms =
      sioEnterRoom sid d.roomId s.sioRooms := rfl

theorem join_lookup_of_none (sid : String) (d : JoinData) (freshId now : String)
    (s : ServerState) (h : lookup s.activeRooms d.roomId = none) :
    lookup ((handle_join_room sid d freshId now s).1).activeRooms d.roomId =
      some ⟨[⟨d.userId.getD freshId, d.userName.getD "Anonymous", now⟩],
            d.userName.getD "Anonymous", false, "Meeting"⟩ := by
  simp [handle_join_room, h, lookup_setKey_self]

theorem join_lookup_of_some (sid : String) (d : JoinData) (freshId now : String)
    (s : ServerState) (rs : RoomState)
    (h : lookup s.activeRooms d.roomId = some rs) :
    lookup ((handle_join_room sid d freshId now s).1).activeRooms d.roomId =
      some { rs with participants := rs.participants ++
        [⟨d.userId.getD freshId, d.userName.getD "Anonymous", now⟩] } := by
  simp [handle_join_room, h, lookup_setKey_self]

/-- C1 counterexample: starting from an empty server, the same `userId`
`u1` joins room `r` twice.  The source appends a second entry instead of
replacing the first, so the live participant count (2) no longer equals
the number of distinct `userId`s currently bound (1), refuting the claim
that a duplicate join replaces the entry and leaves the count unchanged. -/
theorem join_duplicate_userId_counterexample :
    lookup ((handle_join_room "c1" ⟨some "r", some "Bob", some "u1"⟩ "f2" "t2"
        (handle_join_room "c1" ⟨some "r", some "Bob", some "u1"⟩ "f1" "t1"
          ⟨[], []⟩).1).1).activeRooms (some "r") =
      some ⟨[⟨"u1", "Bob", "t1"⟩, ⟨"u1", "Bob", "t2"⟩], "Bob", false, "Meeting"⟩ ∧
    ¬ (([⟨"u1", "Bob", "t1"⟩, ⟨"u1", "Bob", "t2"⟩] : List Participant).length =
        (([⟨"u1", "Bob", "t1"⟩, ⟨"u1", "Bob", "t2"⟩] : List Participant).map
          Participant.userId).dedup.length) := by
  constructor
  · decide
  · decide

/-- C1 (amended): a join into an existing room whose membership already
contains the joiner's `userId` appends a duplicate entry at the end of the
participant list rather than replacing the existing one, so the live
participant count (the length of that list) increases by one; in general
the count tracks entries with multiplicity, not distinct `userId`s. -/
theorem join_duplicate_userId_appends (sid : String) (d : JoinData)
    (freshId now : String) (s : ServerState) (rs : RoomState)
    (h : lookup s.activeRooms d.roomId = some rs)
    (hdup : d.userId.getD freshId ∈ rs.participants.map Participant.userId) :
    ∃ rs', lookup ((handle_join_room sid d freshId now s).1).activeRooms
        d.roomId = some rs' ∧
      rs'.participants = rs.participants ++
        [⟨d.userId.getD freshId, d.userName.getD "Anonymous", now⟩] ∧
      rs'.participants.length = rs.participants.length + 1 := by
  refine ⟨_, join_lookup_of_some sid d freshId now s rs h, rfl, ?_⟩
  simp

/-- Witness for C1 (amended): `u1` is already in room `r`, joins again,
and the room ends with two `u1` entries. -/
theorem join_duplicate_userId_appends_witness :
    ∃ rs', lookup ((handle_join_room "c1" ⟨some "r", some "Bob", some "u1"⟩
        "f2" "t2"
        ⟨[(some "r", ["c1"]), (some "c1", ["c1"])],
         [(some "r", ⟨[⟨"u1", "Bob", "t1"⟩], "Bob", false, "Meeting"⟩)]⟩).1).activeRooms
        (some "r") = some rs' ∧
      rs'.participants = [⟨"u1", "Bob", "t1"⟩] ++ [⟨"u1", "Bob", "t2"⟩] ∧
      rs'.participants.length = ([⟨"u1", "Bob", "t1"⟩] : List Participant).length + 1 :=
  join_duplicate_userId_appends "c1" ⟨some "r", some "Bob", some "u1"⟩ "f2" "t2"
    ⟨[(some "r", ["c1"]), (some "c1", ["c1"])],
     [(some "r", ⟨[⟨"u1", "Bob", "t1"⟩], "Bob", false, "Meeting"⟩)]⟩
    ⟨[⟨"u1", "Bob", "t1"⟩], "Bob", false, "Meeting"⟩ (by decide) (by decide)

/-- C2: a join naming a `roomId` with no live state never fails; it
creates the room on the spot with the joiner as only participant and the
room's host equal to the joiner's (defaulted) user name. -/
theorem join_unknown_room_creates (sid : String) (d : JoinData)
    (freshId now : String) (s : ServerState)
    (h : lookup s.activeRooms d.roomId = none) :
    ∃ rs, lookup ((handle_join_room sid d freshId now s).1).activeRooms
        d.roomId = some rs ∧
      rs.participants = [⟨d.userId.getD freshId, d.userName.getD "Anonymous", now⟩] ∧
      rs.host = d.userName.getD "Anonymous" :=
  ⟨_, join_lookup_of_none sid d freshId now s h, rfl, rfl⟩

/-- Witness for C2: joining the unknown room `r` on an empty server yields
a room with exactly the joiner and host `Bob`. -/
theorem join_unknown_room_creates_witness :
    ∃ rs, lookup ((handle_join_room "c1" ⟨some "r", some "Bob", some "u1"⟩
        "f1" "t1" ⟨[], []⟩).1).activeRooms (some "r") = some rs ∧
      rs.participants = [⟨"u1", "Bob", "t1"⟩] ∧
      rs.host = "Bob" :=
  join_unknown_room_creates "c1" ⟨some "r", some "Bob", some "u1"⟩ "f1" "t1"
    ⟨[], []⟩ (by decide)

/-- C8: when the durable-store write raises, `create_room` answers with the
HTTP 500 error branch, the store is unchanged, and the live room table
(together with the rest of the server state) is exactly what it was, so the
new room id is not added and already-live rooms are unaffected. -/
theorem create_room_store_failure (d : CreateData) (room_id now : String)
    (store : List RoomDoc) (s : ServerState) :
    create_room d room_id now false store s = (store, s, .error) := rfl

/-- C9: none of the three signaling relay handlers changes the server
state: the socket-room table and the whole live room table — hence every
room's participants, host, recording flag and title — are returned
untouched. -/
theorem relay_preserves_state (d1 : OfferData) (d2 : AnswerData)
    (d3 : IceData) (s : ServerState) :
    (handle_webrtc_offer d1 s).1 = s ∧
    (handle_webrtc_answer d2 s).1 = s ∧
    (handle_ice_candidate d3 s).1 = s := ⟨rfl, rfl, rfl⟩

/-- C4: on a live room, two consecutive `start-recording` events leave the
room's recording flag `true`, and each of the two invocations emits exactly
one `recording-started` notification to the members of the room's socket
room — two notifications in total. -/
theorem start_recording_twice (roomId : Key) (s : ServerState)
    (rs : RoomState) (h : lookup s.activeRooms roomId = some rs) :
    (∃ rs', lookup ((handle_start_recording roomId
        (handle_start_recording roomId s).1).1).activeRooms roomId = some rs' ∧
      rs'.recording = true) ∧
    (handle_start_recording roomId s).2 =
      [⟨"recording-started", .emptyPayload, roomMembers s.sioRooms roomId⟩] ∧
    (handle_start_recording roomId (handle_start_recording roomId s).1).2 =
      [⟨"recording-started", .emptyPayload, roomMembers s.sioRooms roomId⟩] := by
  refine ⟨⟨{ rs with recording := true }, ?_, rfl⟩, ?_, ?_⟩ <;>
    simp [handle_start_recording, h, lookup_setKey_self]

/-- Witness for C4: two `start-recording` events on live room `r` with
connection `c1` in its socket room. -/
theorem start_recording_twice_witness :
    (∃ rs', lookup ((handle_start_recording (some "r")
        (handle_start_recording (some "r")
          ⟨[(some "r", ["c1"])],
           [(some "r", ⟨[⟨"u1", "Bob", "t1"⟩], "Bob", false, "Meeting"⟩)]⟩).1).1).activeRooms
        (some "r") = some rs' ∧ rs'.recording = true) ∧
    (handle_start_recording (some "r")
      ⟨[(some "r", ["c1"])],
       [(some "r", ⟨[⟨"u1", "Bob", "t1"⟩], "Bob", false, "Meeting"⟩)]⟩).2 =
      [⟨"recording-started", .emptyPayload, ["c1"]⟩] ∧
    (handle_start_recording (some "r")
      (handle_start_recording (some "r")
        ⟨[(some "r", ["c1"])],
         [(some "r", ⟨[⟨"u1", "Bob", "t1"⟩], "Bob", false, "Meeting"⟩)]⟩).1).2 =
      [⟨"recording-started", .emptyPayload, ["c1"]⟩] :=
  start_recording_twice (some "r")
    ⟨[(some "r", ["c1"])],
     [(some "r", ⟨[⟨"u1", "Bob", "t1"⟩], "Bob", false, "Meeting"⟩)]⟩
    ⟨[⟨"u1", "Bob", "t1"⟩], "Bob", false, "Meeting"⟩ (by decide)

/-- C5 counterexample: sender `s1` sits in meeting room `A`, the target
`t1` is connected but sits in meeting room `B`.  The claim says the offer
may be forwarded only when the target is in the same room as the sender,
so here nothing should be delivered; the handler nevertheless delivers to
`t1`, because it emits to the socket room named `targetId` with no room
check at all. -/
theorem relay_cross_room_counterexample :
    ¬ (∀ e ∈ (handle_webrtc_offer ⟨some "t1", some "blob", some "s1"⟩
        ⟨[(some "A", ["s1"]), (some "B", ["t1"]),
          (some "s1", ["s1"]), (some "t1", ["t1"])], []⟩).2,
        e.recipients = []) := by decide

/-- C5 (amended): each relay handler forwards the payload tagged with the
(possibly absent) `senderId` to exactly the members of the socket room
named `targetId` — the target's personal room when `targetId` is a live
connection id — with no check that the target shares a room with the
sender; when no such socket room exists (target not connected) the
recipient list is empty and no error is produced, the handler having no
error channel at all. -/
theorem relay_targets_socket_room (d1 : OfferData) (d2 : AnswerData)
    (d3 : IceData) (s : ServerState) :
    (handle_webrtc_offer d1 s).2 =
      [⟨"webrtc-offer", .webrtcOffer d1.offer d1.senderId,
        roomMembers s.sioRooms d1.targetId⟩] ∧
    (handle_webrtc_answer d2 s).2 =
      [⟨"webrtc-answer", .webrtcAnswer d2.answer d2.senderId,
        roomMembers s.sioRooms d2.targetId⟩] ∧
    (handle_ice_candidate d3 s).2 =
      [⟨"webrtc-ice-candidate", .iceCandidate d3.candidate d3.senderId,
        roomMembers s.sioRooms d3.targetId⟩] := ⟨rfl, rfl, rfl⟩

/-- C6 counterexample: connection `c1` is already bound to room `A` (it is
in `A`'s socket room and `u1` is in `A`'s participant list), yet its join
of room `B` does not fail: room `B` comes into existence with `u1` as
participant, refuting the claim that such a join fails with
`AlreadyBound`. -/
theorem second_join_counterexample :
    ¬ (lookup ((handle_join_room "c1" ⟨some "B", some "Bob", some "u1"⟩
        "f2" "t2"
        ⟨[(some "A", ["c1"]), (some "c1", ["c1"])],
         [(some "A", ⟨[⟨"u1", "Bob", "t1"⟩], "Bob", false, "Meeting"⟩)]⟩).1).activeRooms
        (some "B") = none) := by decide

/-- C6 (amended): a join by a connection already bound to some other room
succeeds unconditionally — there is no `AlreadyBound` error.  The
connection stays in the socket room it was in, additionally enters the new
room's socket room, and the joiner's participant entry lands in the new
room's live state, so one connection can be bound to two rooms at once. -/
theorem second_join_succeeds (sid : String) (d : JoinData)
    (freshId now : String) (s : ServerState) (k : Key)
    (hk : k ≠ d.roomId) (hmem : sid ∈ roomMembers s.sioRooms k) :
    sid ∈ roomMembers ((handle_join_room sid d freshId now s).1).sioRooms k ∧
    sid ∈ roomMembers ((handle_join_room sid d freshId now s).1).sioRooms d.roomId ∧
    ∃ rs, lookup ((handle_join_room sid d freshId now s).1).activeRooms
        d.roomId = some rs ∧
      (⟨d.userId.getD freshId, d.userName.getD "Anonymous", now⟩ : Participant)
        ∈ rs.participants := by
  refine ⟨?_, ?_, ?_⟩
  · rw [join_sioRooms_eq, roomMembers_sioEnterRoom_ne sid d.roomId k s.sioRooms hk]
    exact hmem
  · rw [join_sioRooms_eq]
    exact mem_roomMembers_sioEnterRoom_self sid d.roomId s.sioRooms
  · cases h : lookup s.activeRooms d.roomId with
    | none =>
        exact ⟨_, join_lookup_of_none sid d freshId now s h, by simp⟩
    | some rs =>
        exact ⟨_, join_lookup_of_some sid d freshId now s rs h, by simp⟩

/-- Witness for C6 (amended): `c1`, bound to room `A`, joins room `B`. -/
theorem second_join_succeeds_witness :
    "c1" ∈ roomMembers ((handle_join_room "c1" ⟨some "B", some "Bob", some "u1"⟩
        "f2" "t2"
        ⟨[(some "A", ["c1"]), (some "c1", ["c1"])],
         [(some "A", ⟨[⟨"u1", "Bob", "t1"⟩], "Bob", false, "Meeting"⟩)]⟩).1).sioRooms
        (some "A") ∧
    "c1" ∈ roomMembers ((handle_join_room "c1" ⟨some "B", some "Bob", some "u1"⟩
        "f2" "t2"
        ⟨[(some "A", ["c1"]), (some "c1", ["c1"])],
         [(some "A", ⟨[⟨"u1", "Bob", "t1"⟩], "Bob", false, "Meeting"⟩)]⟩).1).sioRooms
        (some "B") ∧
    ∃ rs, lookup ((handle_join_room "c1" ⟨some "B", some "Bob", some "u1"⟩
        "f2" "t2"
        ⟨[(some "A", ["c1"]), (some "c1", ["c1"])],
         [(some "A", ⟨[⟨"u1", "Bob", "t1"⟩], "Bob", false, "Meeting"⟩)]⟩).1).activeRooms
        (some "B") = some rs ∧
      (⟨"u1", "Bob", "t2"⟩ : Participant) ∈ rs.participants :=
  second_join_succeeds "c1" ⟨some "B", some "Bob", some "u1"⟩ "f2" "t2"
    ⟨[(some "A", ["c1"]), (some "c1", ["c1"])],
     [(some "A", ⟨[⟨"u1", "Bob", "t1"⟩], "Bob", false, "Meeting"⟩)]⟩
    (some "A") (by decide) (by decide)

/-- C7 counterexample: room `r` is live (one participant) but the durable
store holds no document for it — exactly the state a join-created room is
in.  `get_room` answers `notFound` even though the id is known to the live
room table, refuting the claim that `NotFound` arises only when the id is
unknown to both the live table and the store. -/
theorem get_room_counterexample :
    ¬ (get_room "r" []
        ⟨[], [(some "r", ⟨[⟨"u1", "Bob", "t1"⟩], "Bob", false, "Meeting"⟩)]⟩ =
          .notFound →
       lookup (⟨[], [(some "r", ⟨[⟨"u1", "Bob", "t1"⟩], "Bob", false,
          "Meeting"⟩)]⟩ : ServerState).activeRooms (some "r") = none) := by
  decide

/-- C7 (amended): `get_room` answers `notFound` exactly when the durable
store has no document with the requested id, regardless of live state;
when the store has one, it returns that document together with the live
participant count, which is 0 when the room has no live state. -/
theorem get_room_notFound_iff_store (room_id : String) (store : List RoomDoc)
    (s : ServerState) :
    (get_room room_id store s = .notFound ↔
      store.find? (fun d => d.roomId == room_id) = none) ∧
    (∀ doc, store.find? (fun d => d.roomId == room_id) = some doc →
      get_room room_id store s = .ok doc (liveCount s room_id)) := by
  constructor
  · unfold get_room
    cases hf : store.find? (fun d => d.roomId == room_id) <;> simp
  · intro doc hf
    unfold get_room
    rw [hf]

/-- Witness for C7 (amended): a stored room with no live state is fetched
with participant count 0. -/
theorem get_room_notFound_iff_store_witness :
    get_room "r" [⟨"r", "T", "H", "t0", "active", []⟩] ⟨[], []⟩ =
      .ok ⟨"r", "T", "H", "t0", "active", []⟩ 0 :=
  (get_room_notFound_iff_store "r" [⟨"r", "T", "H", "t0", "active", []⟩]
    ⟨[], []⟩).2 ⟨"r", "T", "H", "t0", "active", []⟩ (by decide)

/-- C10: `handle_leave_room` on a live room whose membership does not
contain the given `userId` keeps the room's participant list exactly as it
was, yet still emits one `user-left` event carrying that `userId` and the
unchanged participant count to the members of the room's socket room
(after the leaver's transport-level socket-room exit); and when the
`roomId` has no live state the handler emits nothing and leaves the live
room table untouched. -/
theorem leave_absent_user (sid : String) (d : LeaveData) (s : ServerState) :
    (∀ rs, lookup s.activeRooms d.roomId = some rs →
      (∀ p ∈ rs.participants, some p.userId ≠ d.userId) →
      lookup ((handle_leave_room sid d s).1).activeRooms d.roomId = some rs ∧
      (handle_leave_room sid d s).2 =
        [⟨"user-left", .userLeft d.userId rs.participants.length,
          roomMembers (sioLeaveRoom sid d.roomId s.sioRooms) d.roomId⟩]) ∧
    (lookup s.activeRooms d.roomId = none →
      ((handle_leave_room sid d s).1).activeRooms = s.activeRooms ∧
      (handle_leave_room sid d s).2 = []) := by
  constructor
  · intro rs h hab
    have hf : List.filter (fun p => !decide (some p.userId = d.userId))
        rs.participants = rs.participants := by
      rw [List.filter_eq_self]
      intro a ha
      simpa using hab a ha
    constructor
    · simp [handle_leave_room, h, lookup_setKey_self, hf]
    · simp [handle_leave_room, h, hf]
  · intro h
    constructor
    · simp [handle_leave_room, h]
    · simp [handle_leave_room, h]

/-- Witness for C10: `c2` sends `leave-room` for live room `r` with the
absent `userId` `zz`; the single participant `u1` stays, and one
`user-left` event with count 1 goes to the remaining socket-room member
`c1`. -/
theorem leave_absent_user_witness :
    lookup ((handle_leave_room "c2" ⟨some "r", some "zz"⟩
        ⟨[(some "r", ["c1", "c2"]), (some "c1", ["c1"]), (some "c2", ["c2"])],
         [(some "r", ⟨[⟨"u1", "Bob", "t1"⟩], "Bob", false, "Meeting"⟩)]⟩).1).activeRooms
        (some "r") = some ⟨[⟨"u1", "Bob", "t1"⟩], "Bob", false, "Meeting"⟩ ∧
    (handle_leave_room "c2" ⟨some "r", some "zz"⟩
        ⟨[(some "r", ["c1", "c2"]), (some "c1", ["c1"]), (some "c2", ["c2"])],
         [(some "r", ⟨[⟨"u1", "Bob", "t1"⟩], "Bob", false, "Meeting"⟩)]⟩).2 =
      [⟨"user-left", .userLeft (some "zz")
          ([⟨"u1", "Bob", "t1"⟩] : List Participant).length,
        roomMembers (sioLeaveRoom "c2" (some "r")
          [(some "r", ["c1", "c2"]), (some "c1", ["c1"]), (some "c2", ["c2"])])
          (some "r")⟩] :=
  (leave_absent_user "c2" ⟨some "r", some "zz"⟩
    ⟨[(some "r", ["c1", "c2"]), (some "c1", ["c1"]), (some "c2", ["c2"])],
     [(some "r", ⟨[⟨"u1", "Bob", "t1"⟩], "Bob", false, "Meeting"⟩)]⟩).1
    ⟨[⟨"u1", "Bob", "t1"⟩], "Bob", false, "Meeting"⟩ (by decide) (by decide)

/-- C3: the source registers no socketio `disconnect` handler, so the
transport disconnect of `c1` — the connection of room `r`'s only
participant `u1` — removes `c1` from the socket rooms but leaves the live
room table byte-for-byte intact and emits nothing: the participant count
stays 1 (not 0) and `u1` remains in every subsequent roster, a ghost
entry, contradicting the claimed disconnect-triggered `leaveRoom`. -/
theorem disconnect_ghost_participant :
    lookup ((handle_disconnect "c1"
        ⟨[(some "r", ["c1"]), (some "c1", ["c1"])],
         [(some "r", ⟨[⟨"u1", "Bob", "t1"⟩], "Bob", false, "Meeting"⟩)]⟩).1).activeRooms
        (some "r") =
      some ⟨[⟨"u1", "Bob", "t1"⟩], "Bob", false, "Meeting"⟩ ∧
    (handle_disconnect "c1"
        ⟨[(some "r", ["c1"]), (some "c1", ["c1"])],
         [(some "r", ⟨[⟨"u1", "Bob", "t1"⟩], "Bob", false, "Meeting"⟩)]⟩).2 = [] := by
  constructor
  · decide
  · decide

end TaskScribe
